import Mathlib

/-!
Shallow embedding of the TLS reconciliation logic of the opensearch-k8s-operator
(`controllers/tlsController.go`), together with the API data model it reads and
the trust-store interface it uses.  Stateful Go code (the Kubernetes client and
the in-place mutated `ControllerContext`) is embedded as explicit state passing
over a `PassState`; every secret `Get`/`Create` issued to the store is recorded
in an operation trace, and every logger call in a log list.
-/

namespace OpenSearchOperator

/-! ## API data model (opsterv1 types, as used by tlsController.go) -/

/-- `opsterv1.TlsSecret`: a reference to a secret, with an optional key. -/
structure TlsSecret where
  secretName : String
  key : Option String
deriving DecidableEq, Repr

/-- `opsterv1.TlsInterfaceConfig`: per-interface TLS policy. -/
structure TlsInterfaceConfig where
  generate : Bool
  caSecret : Option TlsSecret
  certSecret : Option TlsSecret
  keySecret : Option TlsSecret
deriving DecidableEq, Repr

/-- `opsterv1.TlsConfig` (`Spec.Security.Tls`): transport/http interface
policies plus the user-supplied initial `NodesDn` list. -/
structure TlsConfig where
  transport : Option TlsInterfaceConfig
  http : Option TlsInterfaceConfig
  nodesDn : List String
deriving DecidableEq, Repr

/-- `opsterv1.Security`: the security section of the cluster spec. -/
structure Security where
  tls : Option TlsConfig
deriving DecidableEq, Repr

/-- `opsterv1.GeneralConfig` (`Spec.General`). -/
structure GeneralConfig where
  clusterName : String
  serviceName : String
deriving DecidableEq, Repr

/-- `opsterv1.ClusterSpec` (the fields tlsController.go reads). -/
structure ClusterSpec where
  general : GeneralConfig
  security : Option Security
deriving DecidableEq, Repr

/-- `opsterv1.OpenSearchCluster`: the custom resource.  `metaNamespace` is the
resource's own Kubernetes namespace (`ObjectMeta.Namespace`); the TLS
reconciler never reads it, which is itself one of the claims checked below. -/
structure OpenSearchCluster where
  metaNamespace : String
  spec : ClusterSpec
deriving DecidableEq, Repr

/-! ## Certificates (pkg/tls) -/

/-- Modelled from the spec: the package `pkg/tls` (`GenerateCA`,
`CreateAndSignCertificate`, secret (de)serialization) is not under `src/`.
Per the spec a CA is a keypair+certificate whose subject is the cluster name,
and a node certificate is a signed leaf recording the common name it was
issued for and the DNS Subject Alternative Names it is valid for; the key
material itself is opaque and is abstracted away. -/
structure Cert where
  subjectCN : String
  dnsNames : List String
deriving DecidableEq, Repr

/-- Modelled from the spec: `tls.GenerateCA(clusterName)` generates a new
self-signed CA using the cluster name as subject (generation failure is an
environment fault outside the model). -/
def GenerateCA (clusterName : String) : Cert :=
  { subjectCN := clusterName, dnsNames := [] }

/-- Modelled from the spec: `ca.CreateAndSignCertificate(cn, dnsNames)` has the
CA sign a new leaf certificate for `cn` over the given DNS names. -/
def Cert.CreateAndSignCertificate (_ca : Cert) (cn : String)
    (dnsNames : List String) : Cert :=
  { subjectCN := cn, dnsNames := dnsNames }

/-- The opaque byte fields stored in a secret: either CA material
(`ca.crt`/`ca.key`) or node-certificate material (`tls.crt`/`tls.key`/`ca.crt`). -/
inductive SecretData where
  | caFields (ca : Cert)
  | nodeFields (node : Cert) (caCert : Cert)
deriving DecidableEq, Repr

/-- Modelled from the spec: `ca.SecretDataCA()` serializes CA material. -/
def Cert.SecretDataCA (c : Cert) : SecretData := .caFields c

/-- Modelled from the spec: `nodeCert.SecretData(&ca)` serializes the node
certificate together with the CA certificate. -/
def Cert.SecretData (node ca : Cert) : SecretData := .nodeFields node ca

/-- Modelled from the spec: `tls.CAFromSecret(data)` deserializes stored CA
material back into a `CertificateAuthority`. -/
def CAFromSecret : SecretData → Cert
  | .caFields c => c
  | .nodeFields _ ca => ca

/-! ## Trust store -/

/-- A secret's identity in the store: (name, namespace). -/
abbrev SecretKey := String × String

/-- The trust store: an association list from secret identity to data. -/
abbrev Store := List (SecretKey × SecretData)

/-- Fetch a secret (the Kubernetes client `Get`): first entry with the key. -/
def storeFetch : Store → SecretKey → Option SecretData
  | [], _ => none
  | (k', d) :: rest, k => if k = k' then some d else storeFetch rest k

/-- Create a secret (the Kubernetes client `Create`): fails (returns `none`,
the AlreadyExists error) if an entry with the key exists. -/
def storeCreate (s : Store) (k : SecretKey) (d : SecretData) : Option Store :=
  match storeFetch s k with
  | some _ => none
  | none => some ((k, d) :: s)

/-- One store operation, as recorded in the pass trace. -/
inductive StoreOp where
  | fetchOp (name nspace : String)
  | createOp (name nspace : String)
deriving DecidableEq, Repr

/-- The namespace argument of a store operation. -/
def StoreOp.nspaceOf : StoreOp → String
  | .fetchOp _ ns => ns
  | .createOp _ ns => ns

/-- Whether a store operation is a mutation (a `Create`). -/
def StoreOp.isCreate : StoreOp → Bool
  | .fetchOp _ _ => false
  | .createOp _ _ => true

/-! ## ControllerContext (the BuildContext) -/

/-- A volume declaration: logical name → source secret name
(`corev1.Volume` with a `SecretVolumeSource`, the only shape used here). -/
structure Volume where
  name : String
  secretName : String
deriving DecidableEq, Repr

/-- A mount declaration (`corev1.VolumeMount`): logical name, absolute mount
path, optional sub-path into the secret. -/
structure VolumeMount where
  name : String
  mountPath : String
  subPath : Option String
deriving DecidableEq, Repr

/-- One logger call: the message plus structured key/value pairs. -/
structure LogEntry where
  msg : String
  kv : List (String × String)
deriving DecidableEq, Repr

/-- Modelled from the spec: `ControllerContext` and its `AddConfig` method are
defined outside `src/`.  Per the spec it is the pass's append-only output sink:
ordered volume and mount declarations plus a mapping from config key to string
value with last-write-wins reads; the mapping is modelled as an append-only
association list read from the right. -/
structure ControllerContext where
  volumes : List Volume
  volumeMounts : List VolumeMount
  config : List (String × String)
deriving DecidableEq, Repr

/-- Modelled from the spec: `controllerContext.AddConfig(key, value)` records a
configuration directive. -/
def ControllerContext.addConfig (c : ControllerContext) (k v : String) :
    ControllerContext :=
  { c with config := c.config ++ [(k, v)] }

/-- Last-write-wins read of an association list (rightmost entry wins). -/
def assocLast : List (String × String) → String → Option String
  | [], _ => none
  | p :: rest, k =>
    match assocLast rest k with
    | some v => some v
    | none => if p.1 = k then some p.2 else none

/-- The value the workload-builder would observe for a config key. -/
def ControllerContext.getConfig (c : ControllerContext) (k : String) :
    Option String :=
  assocLast c.config k

/-- The empty build context a pass starts from. -/
def emptyCtx : ControllerContext := { volumes := [], volumeMounts := [], config := [] }

/-! ## Pass state -/

/-- The full state threaded through one reconciliation pass: the trust store,
the accumulated `ControllerContext`, the trace of store operations issued, and
the log output. -/
structure PassState where
  store : Store
  ctx : ControllerContext
  trace : List StoreOp
  logs : List LogEntry
deriving DecidableEq, Repr

/-! ## tlsController.go -/

/-- `strings.Join(elems, sep)`. -/
def stringsJoin : List String → String → String
  | [], _ => ""
  | [x], _ => x
  | x :: y :: xs, sep => x ++ sep ++ stringsJoin (y :: xs) sep

/-- The helper `mount(name, name, filename, secret, controllerContext)` of
tlsController.go: one volume sourced from `secret.SecretName` and one mount at
`/usr/share/opensearch/config/tls-<interfaceName>/<filename>` whose sub-path is
`secret.Key` when set and `filename` otherwise. -/
def mount (interfaceName nm filename : String) (secret : TlsSecret)
    (c : ControllerContext) : ControllerContext :=
  let volume : Volume :=
    { name := interfaceName ++ "-" ++ nm, secretName := secret.secretName }
  let c1 := { c with volumes := c.volumes ++ [volume] }
  let secretKey := match secret.key with
    | some k => k
    | none => filename
  let m : VolumeMount :=
    { name := interfaceName ++ "-" ++ nm,
      mountPath := "/usr/share/opensearch/config/tls-" ++ interfaceName ++ "/" ++ filename,
      subPath := some secretKey }
  { c1 with volumeMounts := c1.volumeMounts ++ [m] }

/-- The trailing "Extend opensearch.yml" block of `HandleInterface`: the
interface-specific configuration directives. -/
def extendYml (name : String) (c : ControllerContext) : ControllerContext :=
  if name = "transport" then
    ((((c.addConfig "plugins.security.ssl.transport.pemcert_filepath" "tls-transport/tls.crt").addConfig
        "plugins.security.ssl.transport.pemkey_filepath" "tls-transport/tls.key").addConfig
        "plugins.security.ssl.transport.pemtrustedcas_filepath" "tls-transport/ca.crt").addConfig
        "plugins.security.ssl.transport.enforce_hostname_verification" "false")
  else if name = "http" then
    ((((c.addConfig "plugins.security.ssl.http.enabled" "true").addConfig
        "plugins.security.ssl.http.pemcert_filepath" "tls-http/tls.crt").addConfig
        "plugins.security.ssl.http.pemkey_filepath" "tls-http/tls.key").addConfig
        "plugins.security.ssl.http.pemtrustedcas_filepath" "tls-http/ca.crt")
  else c

/-- `TlsReconciler.HandleInterface(name, config, controllerContext, &nodesDn)`:
returns the updated pass state, the updated `nodesDn` slice, and the error
(`none` on success; the Go error's message otherwise). -/
def TlsReconciler.HandleInterface (inst : OpenSearchCluster) (name : String)
    (config : Option TlsInterfaceConfig) (st0 : PassState)
    (nodesDn0 : List String) : PassState × List String × Option String :=
  match config with
  | none => (st0, nodesDn0, none)
  | some cfg =>
    let nspace := inst.spec.general.clusterName
    let clusterName := inst.spec.general.clusterName
    let caSecretName := clusterName ++ "-ca"
    let nodeSecretName := clusterName ++ "-" ++ name ++ "-cert"
    if cfg.generate then
      -- r.Logger.Info("Generating certificates", "interface", name)
      let st1 : PassState := { st0 with
        logs := st0.logs ++ [LogEntry.mk ("Generating certificates") [("interface", name)]],
        trace := st0.trace ++ [StoreOp.fetchOp caSecretName nspace] }
      -- Check for existing CA secret; on not-found generate and store one
      let caStep : PassState × Option Cert :=
        match storeFetch st1.store (caSecretName, nspace) with
        | some d => (st1, some (CAFromSecret d))
        | none =>
          let ca := GenerateCA clusterName
          let st2 := { st1 with trace := st1.trace ++ [StoreOp.createOp caSecretName nspace] }
          match storeCreate st2.store (caSecretName, nspace) ca.SecretDataCA with
          | some s' => ({ st2 with store := s' }, some ca)
          | none =>
            ({ st2 with
               logs := st2.logs ++ [LogEntry.mk ("Failed to store CA in secret") [("interface", name)]] },
             none)
      match caStep with
      | (st2, none) => (st2, nodesDn0, some "secret already exists")
      | (st2, some ca) =>
        -- Generate node cert, sign it and put it into secret
        let st3 := { st2 with trace := st2.trace ++ [StoreOp.fetchOp nodeSecretName nspace] }
        let nodeStep : PassState × Bool :=
          match storeFetch st3.store (nodeSecretName, nspace) with
          | some _ => (st3, true)
          | none =>
            let dnsNames := [clusterName,
              clusterName ++ "." ++ nspace,
              clusterName ++ "." ++ nspace ++ ".svc",
              clusterName ++ "." ++ nspace ++ ".svc.cluster.local"]
            let nodeCert := ca.CreateAndSignCertificate clusterName dnsNames
            let st4 := { st3 with trace := st3.trace ++ [StoreOp.createOp nodeSecretName nspace] }
            match storeCreate st4.store (nodeSecretName, nspace) (nodeCert.SecretData ca) with
            | some s' => ({ st4 with store := s' }, true)
            | none =>
              ({ st4 with
                 logs := st4.logs ++
                   [LogEntry.mk ("Failed to store node certificate in secret") [("interface", name)]] },
               false)
        match nodeStep with
        | (st4, false) => (st4, nodesDn0, some "secret already exists")
        | (st4, true) =>
          -- Tell cluster controller to mount secrets
          let volume : Volume := { name := name ++ "-cert", secretName := nodeSecretName }
          let c1 := { st4.ctx with volumes := st4.ctx.volumes ++ [volume] }
          let m : VolumeMount :=
            { name := name ++ "-cert",
              mountPath := "/usr/share/opensearch/config/tls-" ++ name,
              subPath := none }
          let c2 := { c1 with volumeMounts := c1.volumeMounts ++ [m] }
          let nodesDn1 :=
            if name = "transport" then nodesDn0 ++ ["CN=" ++ clusterName] else nodesDn0
          ({ st4 with ctx := extendYml name c2 }, nodesDn1, none)
    else
      match cfg.caSecret, cfg.certSecret, cfg.keySecret with
      | some caS, some certS, some keyS =>
        let c1 := mount name "ca" "ca.crt" caS st0.ctx
        let c2 := mount name "key" "tls.key" keyS c1
        let c3 := mount name "cert" "tls.crt" certS c2
        ({ st0 with ctx := extendYml name c3 }, nodesDn0, none)
      | _, _, _ =>
        -- err := errors.New("missing secret in spec")
        ({ st0 with
           logs := st0.logs ++ [LogEntry.mk ("Not all secrets for " ++ name ++ " provided") []] },
         nodesDn0, some "missing secret in spec")

/-- `TlsReconciler.Reconcile(controllerContext)`: the full TLS pass.  Returns
the final pass state (reflecting all in-place mutation up to the point where
the Go function returned) and the error, `none` on success. -/
def TlsReconciler.Reconcile (inst : OpenSearchCluster) (st0 : PassState) :
    PassState × Option String :=
  match inst.spec.security with
  | none =>
    ({ st0 with logs := st0.logs ++ [LogEntry.mk ("No security specified. Not doing anything") []] }, none)
  | some sec =>
    match sec.tls with
    | none =>
      ({ st0 with logs := st0.logs ++ [LogEntry.mk ("No security specified. Not doing anything") []] }, none)
    | some tlsConfig =>
      match TlsReconciler.HandleInterface inst "transport" tlsConfig.transport st0
          tlsConfig.nodesDn with
      | (st1, _, some e) => (st1, some e)
      | (st1, nodesDn1, none) =>
        match TlsReconciler.HandleInterface inst "http" tlsConfig.http st1 nodesDn1 with
        | (st2, _, some e) => (st2, some e)
        | (st2, nodesDn2, none) =>
          let dnVal := "[\"" ++ stringsJoin nodesDn2 "\",\"" ++ "\"]"
          let st3 :=
            if nodesDn2.length > 0 then
              { st2 with ctx := st2.ctx.addConfig "plugins.security.nodes_dn" dnVal }
            else st2
          ({ st3 with
             ctx := st3.ctx.addConfig "plugins.security.allow_unsafe_democertificates" "true" },
           none)

/-! ## Derived descriptions of the generate branch

The following definitions are not translations of further source code; they
are explicit descriptions of what `HandleInterface`'s generate branch does to
each state component, proved equal to it below and used to reason about the
pass compositionally. -/

/-- The identity of the cluster CA secret: name `<cluster>-ca`, namespace the
cluster name. -/
def caKeyOf (c : String) : SecretKey := (c ++ "-ca", c)

/-- The identity of an interface's node-certificate secret:
name `<cluster>-<interface>-cert`, namespace the cluster name. -/
def nodeKeyOf (c nm : String) : SecretKey := (c ++ "-" ++ nm ++ "-cert", c)

/-- The DNS Subject Alternative Names the generate branch signs over (with the
store namespace equal to the cluster name `c`). -/
def dnsNamesOf (c : String) : List String :=
  [c, c ++ "." ++ c, c ++ "." ++ c ++ ".svc", c ++ "." ++ c ++ ".svc.cluster.local"]

/-- The CA the generate branch ends up using against store `s`: the stored one
if the CA secret exists, a freshly generated one otherwise. -/
def caOf (c : String) (s : Store) : Cert :=
  match storeFetch s (caKeyOf c) with
  | some d => CAFromSecret d
  | none => GenerateCA c

/-- The store after the CA step of the generate branch. -/
def storeAfterCA (c : String) (s : Store) : Store :=
  match storeFetch s (caKeyOf c) with
  | some _ => s
  | none => (caKeyOf c, (GenerateCA c).SecretDataCA) :: s

/-- The store after the whole generate branch for interface `nm`. -/
def storeAfterGen (c nm : String) (s : Store) : Store :=
  match storeFetch (storeAfterCA c s) (nodeKeyOf c nm) with
  | some _ => storeAfterCA c s
  | none =>
    (nodeKeyOf c nm,
      Cert.SecretData ((caOf c s).CreateAndSignCertificate c (dnsNamesOf c)) (caOf c s))
      :: storeAfterCA c s

/-- The store operations the generate branch issues against store `s`. -/
def genTrace (c nm : String) (s : Store) : List StoreOp :=
  [StoreOp.fetchOp (c ++ "-ca") c] ++
  (match storeFetch s (caKeyOf c) with
   | some _ => []
   | none => [StoreOp.createOp (c ++ "-ca") c]) ++
  [StoreOp.fetchOp (c ++ "-" ++ nm ++ "-cert") c] ++
  (match storeFetch (storeAfterCA c s) (nodeKeyOf c nm) with
   | some _ => []
   | none => [StoreOp.createOp (c ++ "-" ++ nm ++ "-cert") c])

/-- The build-context additions of the generate branch: one volume sourced
from the node-certificate secret, one directory mount, then the
interface-specific config directives. -/
def genCtx (c nm : String) (ctx : ControllerContext) : ControllerContext :=
  let c1 := { ctx with volumes :=
    ctx.volumes ++ [Volume.mk (nm ++ "-cert") (c ++ "-" ++ nm ++ "-cert")] }
  let c2 := { c1 with volumeMounts :=
    c1.volumeMounts ++
      [VolumeMount.mk (nm ++ "-cert") ("/usr/share/opensearch/config/tls-" ++ nm) none] }
  extendYml nm c2

/-- The build-context additions of the bring-your-own branch: three per-file
volume/mount pairs, then the interface-specific config directives. -/
def extCtx (nm : String) (caS keyS certS : TlsSecret) (ctx : ControllerContext) :
    ControllerContext :=
  extendYml nm (mount nm "cert" "tls.crt" certS (mount nm "key" "tls.key" keyS
    (mount nm "ca" "ca.crt" caS ctx)))

/-- The `nodesDn` entries an interface appends. -/
def dnDelta (c nm : String) (cfg : Option TlsInterfaceConfig) : List String :=
  match cfg with
  | none => []
  | some cf =>
    if cf.generate then (if nm = "transport" then ["CN=" ++ c] else []) else []

/-- The tail of `Reconcile` after both interfaces succeeded: the optional
`nodes_dn` directive followed by the unconditional democertificates one. -/
def tailStep (st : PassState) (dn : List String) : PassState :=
  let dnVal := "[\"" ++ stringsJoin dn "\",\"" ++ "\"]"
  let st3 :=
    if dn.length > 0 then
      { st with ctx := st.ctx.addConfig "plugins.security.nodes_dn" dnVal }
    else st
  { st3 with
    ctx := st3.ctx.addConfig "plugins.security.allow_unsafe_democertificates" "true" }

/-! ## Concrete fixtures (used by witnesses and counterexamples) -/

/-- A transport policy with `generate = true`. -/
def tGen : TlsInterfaceConfig :=
  { generate := true, caSecret := none, certSecret := none, keySecret := none }

/-- A bring-your-own http policy with all three references present. -/
def hExt : TlsInterfaceConfig :=
  { generate := false,
    caSecret := some { secretName := "demo-http-certs", key := none },
    certSecret := some { secretName := "demo-http-certs", key := some "mycert" },
    keySecret := some { secretName := "demo-http-certs", key := none } }

/-- A bring-your-own policy missing its CA reference. -/
def tMissing : TlsInterfaceConfig :=
  { generate := false,
    caSecret := none,
    certSecret := some { secretName := "demo-certs", key := none },
    keySecret := some { secretName := "demo-certs", key := none } }

/-- A TLS policy: generated transport, bring-your-own http, no initial DNs. -/
def demoTls : TlsConfig := { transport := some tGen, http := some hExt, nodesDn := [] }

/-- Cluster `demo` living in Kubernetes namespace `other` with `demoTls`. -/
def demoInst : OpenSearchCluster :=
  { metaNamespace := "other",
    spec := { general := { clusterName := "demo", serviceName := "svc" },
              security := some { tls := some demoTls } } }

/-- A TLS policy setting only an initial `NodesDn` list, leaving both
interfaces unmanaged. -/
def dnOnlyTls : TlsConfig :=
  { transport := none, http := none, nodesDn := ["CN=other-cluster"] }

/-- A cluster whose TLS section sets only an initial `NodesDn` list and leaves
both interfaces unmanaged. -/
def dnOnlyInst : OpenSearchCluster :=
  { metaNamespace := "other",
    spec := { general := { clusterName := "demo", serviceName := "svc" },
              security := some { tls := some dnOnlyTls } } }

/-- A TLS policy with generated transport, no http section, no initial DNs. -/
def genOnlyTls : TlsConfig := { transport := some tGen, http := none, nodesDn := [] }

/-- Cluster `demo` with generated transport, no http section, no initial DNs. -/
def genOnlyInst : OpenSearchCluster :=
  { metaNamespace := "other",
    spec := { general := { clusterName := "demo", serviceName := "svc" },
              security := some { tls := some genOnlyTls } } }

/-- The empty pass state every reconciliation pass starts from. -/
def initialState : PassState := { store := [], ctx := emptyCtx, trace := [], logs := [] }

/-- A cluster with no security section at all. -/
def noSecInst : OpenSearchCluster :=
  { metaNamespace := "other",
    spec := { general := { clusterName := "demo", serviceName := "svc" },
              security := none } }

/-- A TLS policy whose transport interface is bring-your-own with a missing
CA reference. -/
def tMissTls : TlsConfig := { transport := some tMissing, http := some hExt, nodesDn := [] }

/-- Cluster `demo` whose transport policy is missing a secret reference. -/
def tMissInst : OpenSearchCluster :=
  { metaNamespace := "other",
    spec := { general := { clusterName := "demo", serviceName := "svc" },
              security := some { tls := some tMissTls } } }

/-- A TLS policy with generated transport, no http, and a non-empty initial
`NodesDn` list. -/
def dnGenTls : TlsConfig :=
  { transport := some tGen, http := none, nodesDn := ["CN=other-cluster"] }

/-- Cluster `demo` with `dnGenTls`. -/
def dnGenInst : OpenSearchCluster :=
  { metaNamespace := "other",
    spec := { general := { clusterName := "demo", serviceName := "svc" },
              security := some { tls := some dnGenTls } } }

/-! ## Basic store lemmas -/

theorem storeFetch_cons (k k' : SecretKey) (d : SecretData) (s : Store) :
    storeFetch ((k', d) :: s) k = if k = k' then some d else storeFetch s k := rfl

theorem storeFetch_insert_preserve {s : Store} {k k' : SecretKey} {d : SecretData}
    (d' : SecretData) (hk' : storeFetch s k' = none) (h : storeFetch s k = some d) :
    storeFetch ((k', d') :: s) k = some d := by
  have hne : k ≠ k' := by
    rintro rfl
    rw [hk'] at h
    exact Option.noConfusion h
  rw [storeFetch_cons, if_neg hne]
  exact h

/-! ## Characterization of HandleInterface -/

/-- A skipped interface (absent spec) changes nothing. -/
theorem HandleInterface_none (inst : OpenSearchCluster) (nm : String)
    (st : PassState) (dn : List String) :
    TlsReconciler.HandleInterface inst nm none st dn = (st, dn, none) := rfl

/-- The generate branch, described componentwise: it always succeeds, its
store-operation trace and new store are `genTrace`/`storeAfterGen`, its
build-context additions are `genCtx`, and it appends `CN=<cluster>` to
`nodesDn` exactly when the interface is the transport one. -/
theorem HandleInterface_gen (inst : OpenSearchCluster) (nm : String)
    (cfg : TlsInterfaceConfig) (st : PassState) (dn : List String)
    (hg : cfg.generate = true) :
    TlsReconciler.HandleInterface inst nm (some cfg) st dn =
      ({ store := storeAfterGen inst.spec.general.clusterName nm st.store,
         ctx := genCtx inst.spec.general.clusterName nm st.ctx,
         trace := st.trace ++ genTrace inst.spec.general.clusterName nm st.store,
         logs := st.logs ++ [LogEntry.mk "Generating certificates" [("interface", nm)]] },
       dn ++ dnDelta inst.spec.general.clusterName nm (some cfg), none) := by
  have hkey : (inst.spec.general.clusterName ++ "-ca", inst.spec.general.clusterName) =
      caKeyOf inst.spec.general.clusterName := rfl
  have hnkey : (inst.spec.general.clusterName ++ "-" ++ nm ++ "-cert",
      inst.spec.general.clusterName) = nodeKeyOf inst.spec.general.clusterName nm := rfl
  unfold TlsReconciler.HandleInterface
  simp only [hg, if_true, hkey, hnkey]
  cases hca : storeFetch st.store (caKeyOf inst.spec.general.clusterName) with
  | some d =>
    cases hnode : storeFetch st.store (nodeKeyOf inst.spec.general.clusterName nm) with
    | some d' =>
      simp only [hca, hnode, storeAfterGen, storeAfterCA, caOf, genTrace, genCtx, dnDelta,
        hg, if_true, List.append_assoc, List.nil_append, List.append_nil]
      split <;> simp
    | none =>
      simp only [hca, hnode, storeAfterGen, storeAfterCA, caOf, genTrace, genCtx, dnDelta,
        dnsNamesOf, storeCreate, hg, if_true, List.append_assoc, List.nil_append,
        List.append_nil]
      split <;> simp
  | none =>
    cases hnode : storeFetch ((caKeyOf inst.spec.general.clusterName,
        (GenerateCA inst.spec.general.clusterName).SecretDataCA) :: st.store)
        (nodeKeyOf inst.spec.general.clusterName nm) with
    | some d' =>
      simp only [hca, hnode, storeAfterGen, storeAfterCA, caOf, genTrace, genCtx, dnDelta,
        dnsNamesOf, storeCreate, hg, if_true, List.append_assoc, List.nil_append,
        List.append_nil]
      split <;> simp
    | none =>
      simp only [hca, hnode, storeAfterGen, storeAfterCA, caOf, genTrace, genCtx, dnDelta,
        dnsNamesOf, storeCreate, hg, if_true, List.append_assoc, List.nil_append,
        List.append_nil]
      split <;> simp

/-- The bring-your-own branch with all three references present: three
volume/mount pairs plus the interface directives; no store interaction. -/
theorem HandleInterface_ext (inst : OpenSearchCluster) (nm : String)
    (cfg : TlsInterfaceConfig) (st : PassState) (dn : List String)
    {caS certS keyS : TlsSecret}
    (hg : cfg.generate = false) (hca : cfg.caSecret = some caS)
    (hcert : cfg.certSecret = some certS) (hkey : cfg.keySecret = some keyS) :
    TlsReconciler.HandleInterface inst nm (some cfg) st dn =
      ({ st with ctx := extCtx nm caS keyS certS st.ctx }, dn, none) := by
  unfold TlsReconciler.HandleInterface
  simp [hg, hca, hcert, hkey, extCtx]

/-- The bring-your-own branch with a missing reference: the fixed error, one
log line naming the interface, and no other change. -/
theorem HandleInterface_ext_missing (inst : OpenSearchCluster) (nm : String)
    (cfg : TlsInterfaceConfig) (st : PassState) (dn : List String)
    (hg : cfg.generate = false)
    (hmiss : cfg.caSecret = none ∨ cfg.certSecret = none ∨ cfg.keySecret = none) :
    TlsReconciler.HandleInterface inst nm (some cfg) st dn =
      ({ st with logs :=
          st.logs ++ [LogEntry.mk ("Not all secrets for " ++ nm ++ " provided") []] },
       dn, some "missing secret in spec") := by
  unfold TlsReconciler.HandleInterface
  cases hc : cfg.caSecret <;> cases hcc : cfg.certSecret <;> cases hk : cfg.keySecret <;>
    simp_all

/-! ## Store preservation and presence across the generate branch -/

theorem storeAfterCA_preserve (c : String) {s : Store} {k : SecretKey} {d : SecretData}
    (h : storeFetch s k = some d) : storeFetch (storeAfterCA c s) k = some d := by
  unfold storeAfterCA
  cases hca : storeFetch s (caKeyOf c) with
  | some _ => exact h
  | none => exact storeFetch_insert_preserve _ hca h

theorem storeAfterCA_present_ca (c : String) (s : Store) :
    ∃ d, storeFetch (storeAfterCA c s) (caKeyOf c) = some d := by
  unfold storeAfterCA
  cases hca : storeFetch s (caKeyOf c) with
  | some d => exact ⟨d, hca⟩
  | none => exact ⟨_, by rw [storeFetch_cons, if_pos rfl]⟩

theorem storeAfterGen_preserve (c nm : String) {s : Store} {k : SecretKey}
    {d : SecretData} (h : storeFetch s k = some d) :
    storeFetch (storeAfterGen c nm s) k = some d := by
  unfold storeAfterGen
  cases hnode : storeFetch (storeAfterCA c s) (nodeKeyOf c nm) with
  | some _ => exact storeAfterCA_preserve c h
  | none => exact storeFetch_insert_preserve _ hnode (storeAfterCA_preserve c h)

theorem storeAfterGen_present (c nm : String) (s : Store) :
    (∃ d, storeFetch (storeAfterGen c nm s) (caKeyOf c) = some d) ∧
    (∃ d, storeFetch (storeAfterGen c nm s) (nodeKeyOf c nm) = some d) := by
  constructor
  · obtain ⟨d, hd⟩ := storeAfterCA_present_ca c s
    unfold storeAfterGen
    cases hnode : storeFetch (storeAfterCA c s) (nodeKeyOf c nm) with
    | some _ => exact ⟨d, hd⟩
    | none => exact ⟨d, storeFetch_insert_preserve _ hnode hd⟩
  · unfold storeAfterGen
    cases hnode : storeFetch (storeAfterCA c s) (nodeKeyOf c nm) with
    | some d => exact ⟨d, hnode⟩
    | none => exact ⟨_, by rw [storeFetch_cons, if_pos rfl]⟩

/-- When both secrets already exist, the generate branch leaves the store
untouched and issues two fetches and no create. -/
theorem storeAfterGen_of_present {c nm : String} {s : Store} {d1 d2 : SecretData}
    (hca : storeFetch s (caKeyOf c) = some d1)
    (hnode : storeFetch s (nodeKeyOf c nm) = some d2) :
    storeAfterGen c nm s = s ∧
      genTrace c nm s = [StoreOp.fetchOp (c ++ "-ca") c,
        StoreOp.fetchOp (c ++ "-" ++ nm ++ "-cert") c] := by
  unfold storeAfterGen genTrace
  simp [storeAfterCA, hca, hnode]

/-- Any `HandleInterface` call preserves every secret already in the store. -/
theorem HandleInterface_store_mono (inst : OpenSearchCluster) (nm : String)
    (cfg : Option TlsInterfaceConfig) (st : PassState) (dn : List String)
    {k : SecretKey} {d : SecretData} (hk : storeFetch st.store k = some d) :
    storeFetch (TlsReconciler.HandleInterface inst nm cfg st dn).1.store k = some d := by
  cases cfg with
  | none => exact hk
  | some cf =>
    by_cases hg : cf.generate
    · rw [HandleInterface_gen inst nm cf st dn hg]
      exact storeAfterGen_preserve _ _ hk
    · have hg' : cf.generate = false := by simpa using hg
      cases hca : cf.caSecret with
      | none => rw [HandleInterface_ext_missing inst nm cf st dn hg' (Or.inl hca)]; exact hk
      | some caS =>
        cases hcert : cf.certSecret with
        | none =>
          rw [HandleInterface_ext_missing inst nm cf st dn hg' (Or.inr (Or.inl hcert))]
          exact hk
        | some certS =>
          cases hkey : cf.keySecret with
          | none =>
            rw [HandleInterface_ext_missing inst nm cf st dn hg' (Or.inr (Or.inr hkey))]
            exact hk
          | some keyS =>
            rw [HandleInterface_ext inst nm cf st dn hg' hca hcert hkey]
            exact hk

/-- Re-running a successful `HandleInterface` call against any store that
already holds everything the first run left behind succeeds again, mutates
nothing, issues no create, and produces the same build-context and `nodesDn`
output as the first run (given the same input context and list). -/
theorem HandleInterface_rerun (inst : OpenSearchCluster) (nm : String)
    (cfg : Option TlsInterfaceConfig) (st st' : PassState) (dn dn' : List String)
    (h : TlsReconciler.HandleInterface inst nm cfg st dn = (st', dn', none))
    (s2 : Store)
    (hmono : ∀ k d, storeFetch st'.store k = some d → storeFetch s2 k = some d)
    (tr2 : List StoreOp) (lg2 : List LogEntry) :
    ∃ tr' lg',
      TlsReconciler.HandleInterface inst nm cfg ⟨s2, st.ctx, tr2, lg2⟩ dn =
        (⟨s2, st'.ctx, tr2 ++ tr', lg2 ++ lg'⟩, dn', none) ∧
      ∀ op ∈ tr', op.isCreate = false := by
  cases cfg with
  | none =>
    rw [HandleInterface_none] at h
    injection h with h1 h2
    injection h2 with h2 h3
    subst h1 h2
    exact ⟨[], [], by rw [HandleInterface_none]; simp, by simp⟩
  | some cf =>
    by_cases hg : cf.generate
    · rw [HandleInterface_gen inst nm cf st dn hg] at h
      injection h with h1 h2
      injection h2 with h2 h3
      subst h1 h2
      obtain ⟨⟨dca, hca2⟩, ⟨dnode, hnode2⟩⟩ :=
        storeAfterGen_present inst.spec.general.clusterName nm st.store
      have hca3 := hmono _ _ hca2
      have hnode3 := hmono _ _ hnode2
      obtain ⟨hfix, htr⟩ := storeAfterGen_of_present hca3 hnode3
      refine ⟨genTrace inst.spec.general.clusterName nm s2,
        [LogEntry.mk "Generating certificates" [("interface", nm)]], ?_, ?_⟩
      · rw [HandleInterface_gen inst nm cf ⟨s2, st.ctx, tr2, lg2⟩ dn hg, hfix]
      · rw [htr]
        intro op hop
        simp only [List.mem_cons, List.not_mem_nil, or_false] at hop
        rcases hop with rfl | rfl <;> rfl
    · have hg' : cf.generate = false := by simpa using hg
      cases hca : cf.caSecret with
      | none =>
        rw [HandleInterface_ext_missing inst nm cf st dn hg' (Or.inl hca)] at h
        injection h with h1 h2
        injection h2 with h2 h3
        exact absurd h3 (by simp)
      | some caS =>
        cases hcert : cf.certSecret with
        | none =>
          rw [HandleInterface_ext_missing inst nm cf st dn hg' (Or.inr (Or.inl hcert))] at h
          injection h with h1 h2
          injection h2 with h2 h3
          exact absurd h3 (by simp)
        | some certS =>
          cases hkey : cf.keySecret with
          | none =>
            rw [HandleInterface_ext_missing inst nm cf st dn hg' (Or.inr (Or.inr hkey))] at h
            injection h with h1 h2
            injection h2 with h2 h3
            exact absurd h3 (by simp)
          | some keyS =>
            rw [HandleInterface_ext inst nm cf st dn hg' hca hcert hkey] at h
            injection h with h1 h2
            injection h2 with h2 h3
            subst h1 h2
            refine ⟨[], [], ?_, by simp⟩
            rw [HandleInterface_ext inst nm cf ⟨s2, st.ctx, tr2, lg2⟩ dn hg' hca hcert hkey]
            simp

/-! ## Characterization of Reconcile -/

theorem tailStep_store (st : PassState) (dn : List String) :
    (tailStep st dn).store = st.store := by
  simp only [tailStep]
  split <;> rfl

theorem tailStep_trace (st : PassState) (dn : List String) :
    (tailStep st dn).trace = st.trace := by
  simp only [tailStep]
  split <;> rfl

theorem tailStep_logs (st : PassState) (dn : List String) :
    (tailStep st dn).logs = st.logs := by
  simp only [tailStep]
  split <;> rfl

theorem tailStep_ctx_congr (st st' : PassState) (dn : List String)
    (h : st.ctx = st'.ctx) : (tailStep st dn).ctx = (tailStep st' dn).ctx := by
  by_cases hdn : dn.length > 0 <;> simp [tailStep, hdn, h]

/-- With no security section the pass only logs and succeeds. -/
theorem Reconcile_no_security (inst : OpenSearchCluster) (st0 : PassState)
    (h : inst.spec.security = none) :
    TlsReconciler.Reconcile inst st0 =
      ({ st0 with logs :=
          st0.logs ++ [LogEntry.mk "No security specified. Not doing anything" []] },
       none) := by
  unfold TlsReconciler.Reconcile
  simp only [h]

/-- With a security section but no TLS section the pass only logs and
succeeds. -/
theorem Reconcile_no_tls (inst : OpenSearchCluster) (st0 : PassState)
    (sec : Security) (hsec : inst.spec.security = some sec) (htls : sec.tls = none) :
    TlsReconciler.Reconcile inst st0 =
      ({ st0 with logs :=
          st0.logs ++ [LogEntry.mk "No security specified. Not doing anything" []] },
       none) := by
  unfold TlsReconciler.Reconcile
  simp only [hsec, htls]

/-- A pass whose two interface calls both succeed is their composition
followed by `tailStep`. -/
theorem Reconcile_tls_eq (inst : OpenSearchCluster) (st0 : PassState)
    (sec : Security) (tlsConfig : TlsConfig) (stT stH : PassState)
    (dnT dnH : List String)
    (hsec : inst.spec.security = some sec) (htls : sec.tls = some tlsConfig)
    (hT : TlsReconciler.HandleInterface inst "transport" tlsConfig.transport st0
        tlsConfig.nodesDn = (stT, dnT, none))
    (hH : TlsReconciler.HandleInterface inst "http" tlsConfig.http stT dnT =
        (stH, dnH, none)) :
    TlsReconciler.Reconcile inst st0 = (tailStep stH dnH, none) := by
  unfold TlsReconciler.Reconcile tailStep
  simp only [hsec, htls, hT, hH]

/-- A transport failure is returned as is, with the state exactly as the
transport call left it. -/
theorem Reconcile_transport_err (inst : OpenSearchCluster) (st0 : PassState)
    (sec : Security) (tlsConfig : TlsConfig) (stT : PassState)
    (dnT : List String) (e : String)
    (hsec : inst.spec.security = some sec) (htls : sec.tls = some tlsConfig)
    (hT : TlsReconciler.HandleInterface inst "transport" tlsConfig.transport st0
        tlsConfig.nodesDn = (stT, dnT, some e)) :
    TlsReconciler.Reconcile inst st0 = (stT, some e) := by
  unfold TlsReconciler.Reconcile
  simp only [hsec, htls, hT]

/-- An http failure is returned as is, with the state exactly as the http call
left it. -/
theorem Reconcile_http_err (inst : OpenSearchCluster) (st0 : PassState)
    (sec : Security) (tlsConfig : TlsConfig) (stT stH : PassState)
    (dnT dnH : List String) (e : String)
    (hsec : inst.spec.security = some sec) (htls : sec.tls = some tlsConfig)
    (hT : TlsReconciler.HandleInterface inst "transport" tlsConfig.transport st0
        tlsConfig.nodesDn = (stT, dnT, none))
    (hH : TlsReconciler.HandleInterface inst "http" tlsConfig.http stT dnT =
        (stH, dnH, some e)) :
    TlsReconciler.Reconcile inst st0 = (stH, some e) := by
  unfold TlsReconciler.Reconcile
  simp only [hsec, htls, hT, hH]

/-- A successful pass with TLS configured decomposes into two successful
interface calls followed by `tailStep`. -/
theorem Reconcile_success_decomp (inst : OpenSearchCluster) (st0 : PassState)
    (sec : Security) (tlsConfig : TlsConfig) (st' : PassState)
    (hsec : inst.spec.security = some sec) (htls : sec.tls = some tlsConfig)
    (h : TlsReconciler.Reconcile inst st0 = (st', none)) :
    ∃ stT dnT stH dnH,
      TlsReconciler.HandleInterface inst "transport" tlsConfig.transport st0
        tlsConfig.nodesDn = (stT, dnT, none) ∧
      TlsReconciler.HandleInterface inst "http" tlsConfig.http stT dnT =
        (stH, dnH, none) ∧
      st' = tailStep stH dnH := by
  rcases hT : TlsReconciler.HandleInterface inst "transport" tlsConfig.transport st0
      tlsConfig.nodesDn with ⟨stT, dnT, eT⟩
  cases eT with
  | some e =>
    rw [Reconcile_transport_err inst st0 sec tlsConfig stT dnT e hsec htls hT] at h
    injection h with h1 h2
    exact Option.noConfusion h2
  | none =>
    rcases hH : TlsReconciler.HandleInterface inst "http" tlsConfig.http stT dnT
        with ⟨stH, dnH, eH⟩
    cases eH with
    | some e =>
      rw [Reconcile_http_err inst st0 sec tlsConfig stT stH dnT dnH e hsec htls hT hH] at h
      injection h with h1 h2
      exact Option.noConfusion h2
    | none =>
      rw [Reconcile_tls_eq inst st0 sec tlsConfig stT stH dnT dnH hsec htls hT hH] at h
      injection h with h1 h2
      exact ⟨stT, dnT, stH, dnH, rfl, hH, h1.symm⟩

/-! ## Claims -/

/-- C1: For every cluster identity and unchanged TLS policy, running the
reconciliation pass a second time immediately after a successful first pass
performs no further trust-store mutations (no create is issued and the store
is unchanged) and produces a BuildContext (volumes, volume mounts, config)
identical to the first pass's output. -/
theorem tls_pass_idempotent (inst : OpenSearchCluster) (s0 : Store)
    (st1 : PassState)
    (h1 : TlsReconciler.Reconcile inst ⟨s0, emptyCtx, [], []⟩ = (st1, none)) :
    ∃ st2,
      TlsReconciler.Reconcile inst ⟨st1.store, emptyCtx, [], []⟩ = (st2, none) ∧
      st2.store = st1.store ∧ st2.ctx = st1.ctx ∧
      ∀ op ∈ st2.trace, op.isCreate = false := by
  cases hsec : inst.spec.security with
  | none =>
    rw [Reconcile_no_security inst _ hsec] at h1
    injection h1 with h1' h2'
    subst h1'
    exact ⟨_, Reconcile_no_security inst _ hsec, rfl, rfl, by simp⟩
  | some sec =>
    cases htls : sec.tls with
    | none =>
      rw [Reconcile_no_tls inst _ sec hsec htls] at h1
      injection h1 with h1' h2'
      subst h1'
      exact ⟨_, Reconcile_no_tls inst _ sec hsec htls, rfl, rfl, by simp⟩
    | some tlsConfig =>
      obtain ⟨stT, dnT, stH, dnH, hT, hH, hst1⟩ :=
        Reconcile_success_decomp inst _ sec tlsConfig st1 hsec htls h1
      subst hst1
      have hTmono : ∀ k d, storeFetch stT.store k = some d →
          storeFetch (tailStep stH dnH).store k = some d := by
        intro k d hk
        rw [tailStep_store]
        have hm := HandleInterface_store_mono inst "http" tlsConfig.http stT dnT hk
        rw [hH] at hm
        exact hm
      obtain ⟨trT, lgT, hT2, hTfree⟩ :=
        HandleInterface_rerun inst "transport" tlsConfig.transport _ stT
          tlsConfig.nodesDn dnT hT (tailStep stH dnH).store hTmono [] []
      have hT2' : TlsReconciler.HandleInterface inst "transport" tlsConfig.transport
          ⟨(tailStep stH dnH).store, emptyCtx, [], []⟩ tlsConfig.nodesDn =
          (⟨(tailStep stH dnH).store, stT.ctx, trT, lgT⟩, dnT, none) := by
        simpa using hT2
      have hHmono : ∀ k d, storeFetch stH.store k = some d →
          storeFetch (tailStep stH dnH).store k = some d := by
        intro k d hk
        rw [tailStep_store]
        exact hk
      obtain ⟨trH, lgH, hH2, hHfree⟩ :=
        HandleInterface_rerun inst "http" tlsConfig.http stT stH dnT dnH hH
          (tailStep stH dnH).store hHmono trT lgT
      refine ⟨tailStep ⟨(tailStep stH dnH).store, stH.ctx, trT ++ trH, lgT ++ lgH⟩ dnH,
        Reconcile_tls_eq inst _ sec tlsConfig _ _ dnT dnH hsec htls hT2' hH2, ?_, ?_, ?_⟩
      · rw [tailStep_store]
      · exact tailStep_ctx_congr _ stH dnH rfl
      · rw [tailStep_trace]
        intro op hop
        rcases List.mem_append.mp hop with h | h
        · exact hTfree op h
        · exact hHfree op h

/-- Witness for C1: the demo cluster (generated transport, bring-your-own
http) run from an empty store; the second pass mutates nothing and rebuilds
the identical BuildContext. -/
theorem tls_pass_idempotent_witness :
    ∃ st2,
      TlsReconciler.Reconcile demoInst
        ⟨(TlsReconciler.Reconcile demoInst ⟨[], emptyCtx, [], []⟩).1.store,
         emptyCtx, [], []⟩ = (st2, none) ∧
      st2.store = (TlsReconciler.Reconcile demoInst ⟨[], emptyCtx, [], []⟩).1.store ∧
      st2.ctx = (TlsReconciler.Reconcile demoInst ⟨[], emptyCtx, [], []⟩).1.ctx ∧
      ∀ op ∈ st2.trace, op.isCreate = false :=
  tls_pass_idempotent demoInst [] _ rfl

/-- C6: For every reconciliation pass where no security/TLS policy is
configured (the security spec or its TLS section is absent), the pass returns
success, issues no trust-store calls, and leaves the BuildContext empty. -/
theorem no_tls_policy_noop (inst : OpenSearchCluster) (s0 : Store)
    (h : inst.spec.security = none ∨
      ∃ sec, inst.spec.security = some sec ∧ sec.tls = none) :
    ∃ st', TlsReconciler.Reconcile inst ⟨s0, emptyCtx, [], []⟩ = (st', none) ∧
      st'.store = s0 ∧ st'.trace = [] ∧ st'.ctx = emptyCtx := by
  rcases h with h | ⟨sec, hsec, htls⟩
  · exact ⟨_, Reconcile_no_security inst _ h, rfl, rfl, rfl⟩
  · exact ⟨_, Reconcile_no_tls inst _ sec hsec htls, rfl, rfl, rfl⟩

/-- Witness for C6: a cluster without a security section. -/
theorem no_tls_policy_noop_witness :
    ∃ st', TlsReconciler.Reconcile noSecInst ⟨[], emptyCtx, [], []⟩ = (st', none) ∧
      st'.store = [] ∧ st'.trace = [] ∧ st'.ctx = emptyCtx :=
  no_tls_policy_noop noSecInst [] (Or.inl rfl)

/-- C8: For every reconciliation pass in which handling the transport
interface returns an error, the pass returns that error immediately: the
returned state is exactly the state the transport call left, so the http
interface is not processed and no further BuildContext entries (including the
`nodes_dn` and `allow_unsafe_democertificates` directives) are written. -/
theorem transport_error_aborts (inst : OpenSearchCluster) (st0 : PassState)
    (sec : Security) (tlsConfig : TlsConfig) (stT : PassState)
    (dnT : List String) (e : String)
    (hsec : inst.spec.security = some sec) (htls : sec.tls = some tlsConfig)
    (hT : TlsReconciler.HandleInterface inst "transport" tlsConfig.transport st0
        tlsConfig.nodesDn = (stT, dnT, some e)) :
    TlsReconciler.Reconcile inst st0 = (stT, some e) :=
  Reconcile_transport_err inst st0 sec tlsConfig stT dnT e hsec htls hT

/-- Witness for C8: the transport interface with a missing secret reference
aborts the whole pass with its error and with only the error log appended. -/
theorem transport_error_aborts_witness :
    TlsReconciler.Reconcile tMissInst initialState =
      ({ initialState with
          logs := [LogEntry.mk "Not all secrets for transport provided" []] },
       some "missing secret in spec") :=
  transport_error_aborts tMissInst initialState { tls := some tMissTls } tMissTls
    _ _ _ rfl rfl rfl

/-! ## Config lookup lemmas -/

theorem assocLast_append (l1 l2 : List (String × String)) (k : String) :
    assocLast (l1 ++ l2) k =
      match assocLast l2 k with
      | some v => some v
      | none => assocLast l1 k := by
  induction l1 with
  | nil =>
    cases h2 : assocLast l2 k <;> simp [assocLast, h2]
  | cons p rest ih =>
    simp only [List.cons_append, assocLast, List.append_eq, ih]
    cases h2 : assocLast l2 k with
    | some v => rfl
    | none => cases assocLast rest k <;> rfl

theorem assocLast_singleton (k k' v : String) :
    assocLast [(k', v)] k = if k' = k then some v else none := rfl

/-- C9: For every reconciliation pass with TLS policy configured that
completes without error, the BuildContext config ends with the unconditional
directive `plugins.security.allow_unsafe_democertificates = "true"`, written
after both interfaces are processed (it is the last entry), and the
workload-builder observes that value. -/
theorem unsafe_democertificates_directive (inst : OpenSearchCluster)
    (st0 : PassState) (sec : Security) (tlsConfig : TlsConfig) (st' : PassState)
    (hsec : inst.spec.security = some sec) (htls : sec.tls = some tlsConfig)
    (h : TlsReconciler.Reconcile inst st0 = (st', none)) :
    (∃ l, st'.ctx.config =
      l ++ [("plugins.security.allow_unsafe_democertificates", "true")]) ∧
    st'.ctx.getConfig "plugins.security.allow_unsafe_democertificates" =
      some "true" := by
  obtain ⟨stT, dnT, stH, dnH, hT, hH, hst'⟩ :=
    Reconcile_success_decomp inst st0 sec tlsConfig st' hsec htls h
  subst hst'
  have hconf : ∃ l, (tailStep stH dnH).ctx.config =
      l ++ [("plugins.security.allow_unsafe_democertificates", "true")] := by
    by_cases hdn : dnH.length > 0 <;>
      · simp only [tailStep, hdn, if_true, if_false, ControllerContext.addConfig]
        exact ⟨_, rfl⟩
  refine ⟨hconf, ?_⟩
  obtain ⟨l, hl⟩ := hconf
  rw [ControllerContext.getConfig, hl, assocLast_append]
  rfl

/-- Witness for C9: the demo cluster's pass ends with the directive. -/
theorem unsafe_democertificates_directive_witness :
    (∃ l, (TlsReconciler.Reconcile demoInst initialState).1.ctx.config =
      l ++ [("plugins.security.allow_unsafe_democertificates", "true")]) ∧
    (TlsReconciler.Reconcile demoInst initialState).1.ctx.getConfig
      "plugins.security.allow_unsafe_democertificates" = some "true" :=
  unsafe_democertificates_directive demoInst initialState
    { tls := some demoTls } demoTls _ rfl rfl rfl

/-- C4 counterexample: the transport interface with `generate=false` and a
missing CA reference returns the fixed error message "missing secret in
spec"; the returned error does not name the interface (the character sequence
"transport" does not occur anywhere in the message). -/
theorem byo_missing_ref_counterexample :
    (TlsReconciler.HandleInterface tMissInst "transport" (some tMissing)
      initialState []).2.2 = some "missing secret in spec" ∧
    ¬ List.IsInfix "transport".data "missing secret in spec".data :=
  ⟨rfl, by decide⟩

/-- C4 (amended): For every interface spec with `generate=false` where at
least one of `caSecretRef`, `certSecretRef`, `keySecretRef` is absent,
handling that interface returns a ConfigurationError with the fixed message
"missing secret in spec" (the interface name appears only in the accompanying
error log entry, not in the returned error), and no secret fetch or create is
issued: the store, the operation trace, and the BuildContext are all
unchanged. -/
theorem byo_missing_ref_error (inst : OpenSearchCluster) (nm : String)
    (cfg : TlsInterfaceConfig) (st : PassState) (dn : List String)
    (hg : cfg.generate = false)
    (hmiss : cfg.caSecret = none ∨ cfg.certSecret = none ∨ cfg.keySecret = none) :
    TlsReconciler.HandleInterface inst nm (some cfg) st dn =
      ({ st with logs :=
          st.logs ++ [LogEntry.mk ("Not all secrets for " ++ nm ++ " provided") []] },
       dn, some "missing secret in spec") :=
  HandleInterface_ext_missing inst nm cfg st dn hg hmiss

/-- Witness for C4 (amended): the concrete missing-CA transport interface. -/
theorem byo_missing_ref_error_witness :
    TlsReconciler.HandleInterface tMissInst "transport" (some tMissing)
      initialState [] =
      ({ initialState with
          logs := [LogEntry.mk "Not all secrets for transport provided" []] },
       [], some "missing secret in spec") := by
  have h := byo_missing_ref_error tMissInst "transport" tMissing initialState []
    rfl (Or.inl rfl)
  simpa using h

/-- The node-certificate secret name never collides with the CA secret name. -/
theorem node_name_ne_ca_name (c nm : String) :
    c ++ "-" ++ nm ++ "-cert" ≠ c ++ "-ca" := by
  intro hEq
  have hlen := congrArg String.length hEq
  have h1 : "-".length = 1 := rfl
  have h2 : "-cert".length = 5 := rfl
  have h3 : "-ca".length = 3 := rfl
  simp only [String.length_append, h1, h2, h3] at hlen
  omega

/-- C5: For every cluster identity (and any interface with `generate=true`),
ensuring the CA first fetches the secret named `<cluster>-ca`; on not-found a
new self-signed CA with the cluster name as subject is generated, persisted as
a new secret, and returned (signing the node certificate); on found the stored
material is deserialized and used without generating any new CA material; in
all cases at most one CA-secret create is issued. -/
theorem ensure_ca_once (inst : OpenSearchCluster) (nm : String)
    (cfg : TlsInterfaceConfig) (s : Store) (dn : List String)
    (hg : cfg.generate = true) :
    (TlsReconciler.HandleInterface inst nm (some cfg) ⟨s, emptyCtx, [], []⟩
        dn).1.trace.head? =
      some (StoreOp.fetchOp (inst.spec.general.clusterName ++ "-ca")
        inst.spec.general.clusterName) ∧
    (TlsReconciler.HandleInterface inst nm (some cfg) ⟨s, emptyCtx, [], []⟩
        dn).1.trace.count
      (StoreOp.createOp (inst.spec.general.clusterName ++ "-ca")
        inst.spec.general.clusterName) ≤ 1 ∧
    (∀ d, storeFetch s (caKeyOf inst.spec.general.clusterName) = some d →
      storeFetch (TlsReconciler.HandleInterface inst nm (some cfg)
          ⟨s, emptyCtx, [], []⟩ dn).1.store
        (caKeyOf inst.spec.general.clusterName) = some d ∧
      (TlsReconciler.HandleInterface inst nm (some cfg) ⟨s, emptyCtx, [], []⟩
          dn).1.trace.count
        (StoreOp.createOp (inst.spec.general.clusterName ++ "-ca")
          inst.spec.general.clusterName) = 0 ∧
      (storeFetch s (nodeKeyOf inst.spec.general.clusterName nm) = none →
        storeFetch (TlsReconciler.HandleInterface inst nm (some cfg)
            ⟨s, emptyCtx, [], []⟩ dn).1.store
          (nodeKeyOf inst.spec.general.clusterName nm) =
        some (Cert.SecretData
          ((CAFromSecret d).CreateAndSignCertificate inst.spec.general.clusterName
            (dnsNamesOf inst.spec.general.clusterName))
          (CAFromSecret d)))) ∧
    (storeFetch s (caKeyOf inst.spec.general.clusterName) = none →
      storeFetch (TlsReconciler.HandleInterface inst nm (some cfg)
          ⟨s, emptyCtx, [], []⟩ dn).1.store
        (caKeyOf inst.spec.general.clusterName) =
        some ((GenerateCA inst.spec.general.clusterName).SecretDataCA) ∧
      (TlsReconciler.HandleInterface inst nm (some cfg) ⟨s, emptyCtx, [], []⟩
          dn).1.trace.count
        (StoreOp.createOp (inst.spec.general.clusterName ++ "-ca")
          inst.spec.general.clusterName) = 1) := by
  have hne := node_name_ne_ca_name inst.spec.general.clusterName nm
  rw [HandleInterface_gen inst nm cfg ⟨s, emptyCtx, [], []⟩ dn hg]
  refine ⟨?_, ?_, ?_, ?_⟩
  · cases hca : storeFetch s (caKeyOf inst.spec.general.clusterName) <;>
      simp [genTrace, hca]
  · cases hca : storeFetch s (caKeyOf inst.spec.general.clusterName) with
    | none =>
      cases hnode : storeFetch (storeAfterCA inst.spec.general.clusterName s)
          (nodeKeyOf inst.spec.general.clusterName nm) <;>
        simp [genTrace, hca, hnode, List.count_cons, hne]
    | some d =>
      cases hnode : storeFetch (storeAfterCA inst.spec.general.clusterName s)
          (nodeKeyOf inst.spec.general.clusterName nm) <;>
        simp [genTrace, hca, hnode, List.count_cons, hne]
  · intro d hca
    have hs1 : storeAfterCA inst.spec.general.clusterName s = s := by
      simp [storeAfterCA, hca]
    refine ⟨?_, ?_, ?_⟩
    · cases hnode : storeFetch s (nodeKeyOf inst.spec.general.clusterName nm) with
      | some d' => simp [storeAfterGen, hs1, hnode, hca]
      | none =>
        simp only [storeAfterGen, hs1, hnode]
        exact storeFetch_insert_preserve _ hnode hca
    · cases hnode : storeFetch s (nodeKeyOf inst.spec.general.clusterName nm) <;>
        simp [genTrace, hca, hs1, hnode, List.count_cons, hne]
    · intro hnode0
      simp only [storeAfterGen, hs1, hnode0]
      rw [storeFetch_cons, if_pos rfl, caOf, hca]
  · intro hca
    have hs1 : storeAfterCA inst.spec.general.clusterName s =
        (caKeyOf inst.spec.general.clusterName,
          (GenerateCA inst.spec.general.clusterName).SecretDataCA) :: s := by
      simp [storeAfterCA, hca]
    constructor
    · cases hnode : storeFetch (storeAfterCA inst.spec.general.clusterName s)
          (nodeKeyOf inst.spec.general.clusterName nm) with
      | some d' =>
        simp only [storeAfterGen, hnode]
        rw [hs1, storeFetch_cons, if_pos rfl]
      | none =>
        simp only [storeAfterGen, hnode]
        refine storeFetch_insert_preserve _ hnode ?_
        rw [hs1, storeFetch_cons, if_pos rfl]
    · cases hnode : storeFetch (storeAfterCA inst.spec.general.clusterName s)
          (nodeKeyOf inst.spec.general.clusterName nm) <;>
        simp [genTrace, hca, hnode, List.count_cons, hne]

/-- Witness for C5: the generate-transport interface over an empty store. -/
theorem ensure_ca_once_witness :
    (TlsReconciler.HandleInterface demoInst "transport" (some tGen)
        ⟨[], emptyCtx, [], []⟩ []).1.trace.head? =
      some (StoreOp.fetchOp "demo-ca" "demo") ∧
    storeFetch (TlsReconciler.HandleInterface demoInst "transport" (some tGen)
        ⟨[], emptyCtx, [], []⟩ []).1.store (caKeyOf "demo") =
      some ((GenerateCA "demo").SecretDataCA) := by
  have h := ensure_ca_once demoInst "transport" tGen [] [] rfl
  exact ⟨h.1, (h.2.2.2 rfl).1⟩

/-- C2 counterexample: cluster `demo` whose resource lives in Kubernetes
namespace `other`.  The node certificate is signed over
`{demo, demo.demo, demo.demo.svc, demo.demo.svc.cluster.local}` — the second
component of each name is the cluster name, not the cluster's namespace
`other` — so the claimed SAN set (using the cluster's namespace) is wrong. -/
theorem node_cert_sans_counterexample :
    demoInst.metaNamespace = "other" ∧
    storeFetch (TlsReconciler.HandleInterface demoInst "transport" (some tGen)
        initialState []).1.store (nodeKeyOf "demo" "transport") =
      some (Cert.SecretData
        (Cert.CreateAndSignCertificate (GenerateCA "demo") "demo"
          ["demo", "demo.demo", "demo.demo.svc", "demo.demo.svc.cluster.local"])
        (GenerateCA "demo")) ∧
    (["demo", "demo.demo", "demo.demo.svc", "demo.demo.svc.cluster.local"] :
        List String) ≠
      ["demo", "demo.other", "demo.other.svc", "demo.other.svc.cluster.local"] :=
  ⟨rfl, rfl, by decide⟩

/-- C2 (amended): For every transport interface with `generate=true` where
neither the CA secret nor the node-certificate secret exists, the CA secret is
created before the node-certificate secret (the trace is fetch-CA, create-CA,
fetch-node, create-node in that order), and the node certificate's DNS Subject
Alternative Names are exactly
`{c, c.c, c.c.svc, c.c.svc.cluster.local}` where `c` is the cluster name (the
code also uses the cluster name as the namespace component). -/
theorem gen_transport_ca_before_node (inst : OpenSearchCluster)
    (cfg : TlsInterfaceConfig) (s : Store) (dn : List String)
    (hg : cfg.generate = true)
    (hca : storeFetch s (caKeyOf inst.spec.general.clusterName) = none)
    (hnode : storeFetch s (nodeKeyOf inst.spec.general.clusterName "transport") = none) :
    (TlsReconciler.HandleInterface inst "transport" (some cfg)
        ⟨s, emptyCtx, [], []⟩ dn).1.trace =
      [StoreOp.fetchOp (inst.spec.general.clusterName ++ "-ca")
         inst.spec.general.clusterName,
       StoreOp.createOp (inst.spec.general.clusterName ++ "-ca")
         inst.spec.general.clusterName,
       StoreOp.fetchOp (inst.spec.general.clusterName ++ "-" ++ "transport" ++ "-cert")
         inst.spec.general.clusterName,
       StoreOp.createOp (inst.spec.general.clusterName ++ "-" ++ "transport" ++ "-cert")
         inst.spec.general.clusterName] ∧
    storeFetch (TlsReconciler.HandleInterface inst "transport" (some cfg)
        ⟨s, emptyCtx, [], []⟩ dn).1.store
      (nodeKeyOf inst.spec.general.clusterName "transport") =
      some (Cert.SecretData
        ((GenerateCA inst.spec.general.clusterName).CreateAndSignCertificate
          inst.spec.general.clusterName (dnsNamesOf inst.spec.general.clusterName))
        (GenerateCA inst.spec.general.clusterName)) ∧
    dnsNamesOf inst.spec.general.clusterName =
      [inst.spec.general.clusterName,
       inst.spec.general.clusterName ++ "." ++ inst.spec.general.clusterName,
       inst.spec.general.clusterName ++ "." ++ inst.spec.general.clusterName ++ ".svc",
       inst.spec.general.clusterName ++ "." ++ inst.spec.general.clusterName ++
         ".svc.cluster.local"] := by
  have hkne : nodeKeyOf inst.spec.general.clusterName "transport" ≠
      caKeyOf inst.spec.general.clusterName := by
    intro hEq
    exact node_name_ne_ca_name inst.spec.general.clusterName "transport"
      (congrArg Prod.fst hEq)
  have hnode' : storeFetch (storeAfterCA inst.spec.general.clusterName s)
      (nodeKeyOf inst.spec.general.clusterName "transport") = none := by
    simp only [storeAfterCA, hca, storeFetch_cons, if_neg hkne]
    exact hnode
  rw [HandleInterface_gen inst "transport" cfg ⟨s, emptyCtx, [], []⟩ dn hg]
  refine ⟨?_, ?_, rfl⟩
  · simp [genTrace, hca, hnode']
  · simp only [storeAfterGen, hnode', caOf, hca]
    rw [storeFetch_cons, if_pos rfl]

/-- Witness for C2 (amended): the demo cluster from an empty store. -/
theorem gen_transport_ca_before_node_witness :
    (TlsReconciler.HandleInterface demoInst "transport" (some tGen)
        ⟨[], emptyCtx, [], []⟩ []).1.trace =
      [StoreOp.fetchOp "demo-ca" "demo",
       StoreOp.createOp "demo-ca" "demo",
       StoreOp.fetchOp "demo-transport-cert" "demo",
       StoreOp.createOp "demo-transport-cert" "demo"] ∧
    dnsNamesOf "demo" =
      ["demo", "demo.demo", "demo.demo.svc", "demo.demo.svc.cluster.local"] := by
  have h := gen_transport_ca_before_node demoInst tGen [] [] rfl rfl rfl
  exact ⟨by simpa using h.1, by simpa using h.2.2⟩

theorem extendYml_volumes (nm : String) (c : ControllerContext) :
    (extendYml nm c).volumes = c.volumes := by
  unfold extendYml ControllerContext.addConfig
  split
  · rfl
  · split <;> rfl

theorem extendYml_volumeMounts (nm : String) (c : ControllerContext) :
    (extendYml nm c).volumeMounts = c.volumeMounts := by
  unfold extendYml ControllerContext.addConfig
  split
  · rfl
  · split <;> rfl

/-- C7 counterexample: the claim requires, for every non-skipped interface,
one volume and one mount per trust-material file — three of each, for
`ca.crt`, `tls.key`, `tls.crt`, each mounted at `tls-<iface>/<filename>`.
Handling the generated transport interface instead appends exactly one volume
and exactly one mount, and that single mount is the whole node-certificate
secret at the directory path `tls-transport` with no filename component and
no sub-path; 1 ≠ 3, so the claim fails on the generated case. -/
theorem per_file_mounts_counterexample :
    (TlsReconciler.HandleInterface demoInst "transport" (some tGen)
        initialState []).1.ctx.volumes.length = 1 ∧
    (TlsReconciler.HandleInterface demoInst "transport" (some tGen)
        initialState []).1.ctx.volumeMounts.length = 1 ∧
    (TlsReconciler.HandleInterface demoInst "transport" (some tGen)
        initialState []).1.ctx.volumeMounts =
      [VolumeMount.mk "transport-cert"
        "/usr/share/opensearch/config/tls-transport" none] ∧
    (["ca.crt", "tls.key", "tls.crt"] : List String).length = 3 ∧
    (1 : Nat) ≠ 3 :=
  ⟨rfl, rfl, rfl, rfl, by decide⟩

/-- C7 (amended): For every non-skipped externally supplied interface,
handling it appends one volume and one mount per trust-material file
(`ca.crt`, `tls.key`, `tls.crt`), each mounted at
`tls-<interfaceName>/<filename>` with the mount's sub-path within the secret
being `SecretRef.key` when set and the default filename otherwise; for a
generated interface it instead appends a single volume sourced from the
node-certificate secret and a single mount of the whole directory
`tls-<interfaceName>` with no sub-path. -/
theorem mounts_per_interface :
    (∀ (inst : OpenSearchCluster) (nm : String) (cfg : TlsInterfaceConfig)
        (st : PassState) (dn : List String), cfg.generate = true →
      (TlsReconciler.HandleInterface inst nm (some cfg) st dn).1.ctx.volumes =
        st.ctx.volumes ++ [Volume.mk (nm ++ "-cert")
          (inst.spec.general.clusterName ++ "-" ++ nm ++ "-cert")] ∧
      (TlsReconciler.HandleInterface inst nm (some cfg) st dn).1.ctx.volumeMounts =
        st.ctx.volumeMounts ++ [VolumeMount.mk (nm ++ "-cert")
          ("/usr/share/opensearch/config/tls-" ++ nm) none]) ∧
    (∀ (inst : OpenSearchCluster) (nm : String) (cfg : TlsInterfaceConfig)
        (st : PassState) (dn : List String) (caS certS keyS : TlsSecret),
      cfg.generate = false → cfg.caSecret = some caS →
      cfg.certSecret = some certS → cfg.keySecret = some keyS →
      (TlsReconciler.HandleInterface inst nm (some cfg) st dn).1.ctx.volumes =
        st.ctx.volumes ++
          [Volume.mk (nm ++ "-ca") caS.secretName,
           Volume.mk (nm ++ "-key") keyS.secretName,
           Volume.mk (nm ++ "-cert") certS.secretName] ∧
      (TlsReconciler.HandleInterface inst nm (some cfg) st dn).1.ctx.volumeMounts =
        st.ctx.volumeMounts ++
          [VolumeMount.mk (nm ++ "-ca")
             ("/usr/share/opensearch/config/tls-" ++ nm ++ "/" ++ "ca.crt")
             (some (caS.key.getD "ca.crt")),
           VolumeMount.mk (nm ++ "-key")
             ("/usr/share/opensearch/config/tls-" ++ nm ++ "/" ++ "tls.key")
             (some (keyS.key.getD "tls.key")),
           VolumeMount.mk (nm ++ "-cert")
             ("/usr/share/opensearch/config/tls-" ++ nm ++ "/" ++ "tls.crt")
             (some (certS.key.getD "tls.crt"))]) := by
  constructor
  · intro inst nm cfg st dn hg
    rw [HandleInterface_gen inst nm cfg st dn hg]
    constructor
    · simp [genCtx, extendYml_volumes]
    · simp [genCtx, extendYml_volumeMounts]
  · intro inst nm cfg st dn caS certS keyS hg hca hcert hkey
    have e1 : ("-" : String) ++ "ca" = "-ca" := rfl
    have e2 : ("-" : String) ++ "key" = "-key" := rfl
    have e3 : ("-" : String) ++ "cert" = "-cert" := rfl
    rw [HandleInterface_ext inst nm cfg st dn hg hca hcert hkey]
    constructor
    · simp [extCtx, mount, extendYml_volumes, List.append_assoc,
        String.append_assoc, e1, e2, e3]
    · cases hck : caS.key <;> cases hcc : certS.key <;> cases hkk : keyS.key <;>
        simp [extCtx, mount, extendYml_volumeMounts, List.append_assoc,
          String.append_assoc, e1, e2, e3, hck, hcc, hkk]

/-- Witness for C7 (amended): both branches at concrete interfaces. -/
theorem mounts_per_interface_witness :
    (TlsReconciler.HandleInterface demoInst "transport" (some tGen)
        initialState []).1.ctx.volumes =
      [Volume.mk "transport-cert" "demo-transport-cert"] ∧
    (TlsReconciler.HandleInterface demoInst "http" (some hExt)
        initialState []).1.ctx.volumeMounts =
      [VolumeMount.mk "http-ca" "/usr/share/opensearch/config/tls-http/ca.crt"
         (some "ca.crt"),
       VolumeMount.mk "http-key" "/usr/share/opensearch/config/tls-http/tls.key"
         (some "tls.key"),
       VolumeMount.mk "http-cert" "/usr/share/opensearch/config/tls-http/tls.crt"
         (some "mycert")] := by
  have h := mounts_per_interface
  constructor
  · have h1 := (h.1 demoInst "transport" tGen initialState [] rfl).1
    simpa using h1
  · have h2 := (h.2 demoInst "http" hExt initialState [] _ _ _ rfl rfl rfl rfl).2
    simpa using h2

theorem mount_config (i n f : String) (s : TlsSecret) (ctx : ControllerContext) :
    (mount i n f s ctx).config = ctx.config := rfl

/-- The interface-specific directives never write the `nodes_dn` key. -/
theorem extendYml_nodes_dn (nm : String) (ctx : ControllerContext) :
    assocLast (extendYml nm ctx).config "plugins.security.nodes_dn" =
      assocLast ctx.config "plugins.security.nodes_dn" := by
  unfold extendYml ControllerContext.addConfig
  split
  · simp [assocLast_append, assocLast]
  · split
    · simp [assocLast_append, assocLast]
    · rfl

/-- On success, the `nodesDn` output of an interface call is the input plus
`dnDelta`. -/
theorem HandleInterface_dn (inst : OpenSearchCluster) (nm : String)
    (cfg : Option TlsInterfaceConfig) (st st' : PassState) (dn dn' : List String)
    (h : TlsReconciler.HandleInterface inst nm cfg st dn = (st', dn', none)) :
    dn' = dn ++ dnDelta inst.spec.general.clusterName nm cfg := by
  cases cfg with
  | none =>
    rw [HandleInterface_none] at h
    injection h with h1 h2
    injection h2 with h2 h3
    rw [← h2, dnDelta, List.append_nil]
  | some cf =>
    by_cases hg : cf.generate
    · rw [HandleInterface_gen inst nm cf st dn hg] at h
      injection h with h1 h2
      injection h2 with h2 h3
      exact h2.symm
    · have hg' : cf.generate = false := by simpa using hg
      cases hca : cf.caSecret with
      | none =>
        rw [HandleInterface_ext_missing inst nm cf st dn hg' (Or.inl hca)] at h
        injection h with h1 h2
        injection h2 with h2 h3
        exact Option.noConfusion h3
      | some caS =>
        cases hcert : cf.certSecret with
        | none =>
          rw [HandleInterface_ext_missing inst nm cf st dn hg' (Or.inr (Or.inl hcert))] at h
          injection h with h1 h2
          injection h2 with h2 h3
          exact Option.noConfusion h3
        | some certS =>
          cases hkey : cf.keySecret with
          | none =>
            rw [HandleInterface_ext_missing inst nm cf st dn hg'
              (Or.inr (Or.inr hkey))] at h
            injection h with h1 h2
            injection h2 with h2 h3
            exact Option.noConfusion h3
          | some keyS =>
            rw [HandleInterface_ext inst nm cf st dn hg' hca hcert hkey] at h
            injection h with h1 h2
            injection h2 with h2 h3
            rw [← h2]
            simp [dnDelta, hg']

/-- The http interface never contributes to `nodesDn`. -/
theorem dnDelta_http (c : String) (cfg : Option TlsInterfaceConfig) :
    dnDelta c "http" cfg = [] := by
  cases cfg with
  | none => rfl
  | some cf => by_cases hg : cf.generate <;> simp [dnDelta, hg]

/-- No interface call ever writes the `nodes_dn` config key. -/
theorem HandleInterface_nodes_dn_config (inst : OpenSearchCluster) (nm : String)
    (cfg : Option TlsInterfaceConfig) (st : PassState) (dn : List String) :
    assocLast (TlsReconciler.HandleInterface inst nm cfg st dn).1.ctx.config
        "plugins.security.nodes_dn" =
      assocLast st.ctx.config "plugins.security.nodes_dn" := by
  cases cfg with
  | none => rfl
  | some cf =>
    by_cases hg : cf.generate
    · rw [HandleInterface_gen inst nm cf st dn hg]
      exact extendYml_nodes_dn nm _
    · have hg' : cf.generate = false := by simpa using hg
      cases hca : cf.caSecret with
      | none => rw [HandleInterface_ext_missing inst nm cf st dn hg' (Or.inl hca)]
      | some caS =>
        cases hcert : cf.certSecret with
        | none =>
          rw [HandleInterface_ext_missing inst nm cf st dn hg' (Or.inr (Or.inl hcert))]
        | some certS =>
          cases hkey : cf.keySecret with
          | none =>
            rw [HandleInterface_ext_missing inst nm cf st dn hg' (Or.inr (Or.inr hkey))]
          | some keyS =>
            rw [HandleInterface_ext inst nm cf st dn hg' hca hcert hkey]
            calc assocLast (extCtx nm caS keyS certS st.ctx).config
                  "plugins.security.nodes_dn" =
                assocLast st.ctx.config "plugins.security.nodes_dn" := by
                  unfold extCtx
                  rw [extendYml_nodes_dn, mount_config, mount_config, mount_config]

theorem assocLast_append_ne (l : List (String × String)) (k1 v1 k : String)
    (hne : k1 ≠ k) : assocLast (l ++ [(k1, v1)]) k = assocLast l k := by
  rw [assocLast_append]
  simp [assocLast, hne]

theorem assocLast_append_eq (l : List (String × String)) (k v : String) :
    assocLast (l ++ [(k, v)]) k = some v := by
  rw [assocLast_append]
  simp [assocLast]

/-- The transport interface contributes to `nodesDn` iff it is configured
with `generate = true`. -/
theorem dnDelta_transport_ne_nil (c : String) (cfg : Option TlsInterfaceConfig) :
    dnDelta c "transport" cfg ≠ [] ↔ ∃ t, cfg = some t ∧ t.generate = true := by
  cases cfg with
  | none => simp [dnDelta]
  | some cf =>
    by_cases hg : cf.generate <;> simp [dnDelta, hg]

/-- C3 counterexample: (a) a TLS policy whose `NodesDn` list is non-empty but
whose interfaces are both absent still emits `plugins.security.nodes_dn`, so
presence does not require a self-generated transport interface; (b) with a
non-empty initial `NodesDn` list, a generate-transport skip-http pass emits a
value different from `["CN=<cluster>"]`. -/
theorem nodes_dn_iff_counterexample :
    ((TlsReconciler.Reconcile dnOnlyInst initialState).1.ctx.getConfig
        "plugins.security.nodes_dn").isSome = true ∧
    dnOnlyTls.transport = none ∧ dnOnlyTls.http = none ∧
    (TlsReconciler.Reconcile dnGenInst initialState).1.ctx.getConfig
        "plugins.security.nodes_dn" =
      some "[\"CN=other-cluster\",\"CN=demo\"]" ∧
    dnGenTls.transport = some tGen ∧ tGen.generate = true ∧ dnGenTls.http = none ∧
    ("[\"CN=other-cluster\",\"CN=demo\"]" : String) ≠ "[\"CN=demo\"]" :=
  ⟨rfl, rfl, rfl, rfl, rfl, rfl, rfl, by decide⟩

/-- C3 (amended): For every successful reconciliation pass with TLS policy
configured, `plugins.security.nodes_dn` is present in the BuildContext output
iff the policy's initial `NodesDn` list is non-empty or the transport
interface is configured with `generate = true`; and in a pass where transport
has `generate=true`, http is absent, and the initial `NodesDn` list is empty,
its value is the string `["CN=<cluster>"]`. -/
theorem nodes_dn_iff (inst : OpenSearchCluster) (s0 : Store)
    (sec : Security) (tlsConfig : TlsConfig) (st' : PassState)
    (hsec : inst.spec.security = some sec) (htls : sec.tls = some tlsConfig)
    (h : TlsReconciler.Reconcile inst ⟨s0, emptyCtx, [], []⟩ = (st', none)) :
    ((st'.ctx.getConfig "plugins.security.nodes_dn").isSome = true ↔
      tlsConfig.nodesDn ≠ [] ∨
        ∃ t, tlsConfig.transport = some t ∧ t.generate = true) ∧
    (∀ tc, tlsConfig.transport = some tc → tc.generate = true →
      tlsConfig.http = none → tlsConfig.nodesDn = [] →
      st'.ctx.getConfig "plugins.security.nodes_dn" =
        some ("[\"CN=" ++ inst.spec.general.clusterName ++ "\"]")) := by
  obtain ⟨stT, dnT, stH, dnH, hT, hH, rfl⟩ :=
    Reconcile_success_decomp inst _ sec tlsConfig st' hsec htls h
  have hdnT := HandleInterface_dn inst "transport" tlsConfig.transport _ _ _ _ hT
  have hdnH := HandleInterface_dn inst "http" tlsConfig.http _ _ _ _ hH
  rw [dnDelta_http, List.append_nil] at hdnH
  have hcfgH : assocLast stH.ctx.config "plugins.security.nodes_dn" = none := by
    have h2 := HandleInterface_nodes_dn_config inst "http" tlsConfig.http stT dnT
    rw [hH] at h2
    have h1 := HandleInterface_nodes_dn_config inst "transport" tlsConfig.transport
      ⟨s0, emptyCtx, [], []⟩ tlsConfig.nodesDn
    rw [hT] at h1
    rw [h2, h1]
    rfl
  have hget : (tailStep stH dnH).ctx.getConfig "plugins.security.nodes_dn" =
      (if dnH.length > 0 then
        some ("[\"" ++ stringsJoin dnH "\",\"" ++ "\"]") else none) := by
    by_cases hdn : dnH.length > 0
    · simp only [tailStep, hdn, if_true, ControllerContext.addConfig,
        ControllerContext.getConfig]
      rw [assocLast_append_ne _ _ _ _ (by simp), assocLast_append_eq]
    · simp only [tailStep, hdn, if_false, ControllerContext.addConfig,
        ControllerContext.getConfig]
      rw [assocLast_append_ne _ _ _ _ (by simp), hcfgH]
  constructor
  · rw [hget]
    by_cases hdn : dnH.length > 0
    · simp only [hdn, if_true, Option.isSome_some, true_iff]
      have hne : tlsConfig.nodesDn ≠ [] ∨
          dnDelta inst.spec.general.clusterName "transport" tlsConfig.transport ≠ [] := by
        by_contra hcon
        push_neg at hcon
        rw [hdnH, hdnT, hcon.1, hcon.2] at hdn
        simp at hdn
      rcases hne with h1 | h2
      · exact Or.inl h1
      · exact Or.inr ((dnDelta_transport_ne_nil _ _).mp h2)
    · simp only [hdn, if_false, Option.isSome_none, Bool.false_eq_true, false_iff]
      have hnil : dnH = [] := by
        rcases List.eq_nil_or_concat dnH with h0 | ⟨l, x, rfl⟩
        · exact h0
        · simp at hdn
      rw [hdnH, hdnT] at hnil
      rcases List.append_eq_nil.mp hnil with ⟨h1, h2⟩
      rintro (h3 | h3)
      · exact h3 h1
      · exact (dnDelta_transport_ne_nil _ _).mpr h3 h2
  · intro tc htr hgen hhttp hdn0
    have hdelta : dnDelta inst.spec.general.clusterName "transport"
        tlsConfig.transport = ["CN=" ++ inst.spec.general.clusterName] := by
      rw [htr]
      simp [dnDelta, hgen]
    have hdnH1 : dnH = ["CN=" ++ inst.spec.general.clusterName] := by
      rw [hdnH, hdnT, hdn0, hdelta, List.nil_append]
    rw [hget, hdnH1]
    simp only [List.length_singleton, gt_iff_lt, Nat.zero_lt_one, if_true]
    have hjoin : stringsJoin ["CN=" ++ inst.spec.general.clusterName] "\",\"" =
        "CN=" ++ inst.spec.general.clusterName := rfl
    rw [hjoin, ← String.append_assoc]
    rfl

/-- Witness for C3 (amended): the generate-transport skip-http demo cluster. -/
theorem nodes_dn_iff_witness :
    ((TlsReconciler.Reconcile genOnlyInst ⟨[], emptyCtx, [], []⟩).1.ctx.getConfig
        "plugins.security.nodes_dn").isSome = true ∧
    (TlsReconciler.Reconcile genOnlyInst ⟨[], emptyCtx, [], []⟩).1.ctx.getConfig
        "plugins.security.nodes_dn" = some "[\"CN=demo\"]" := by
  have h := nodes_dn_iff genOnlyInst [] { tls := some genOnlyTls } genOnlyTls _
    rfl rfl rfl
  constructor
  · exact h.1.mpr (Or.inr ⟨tGen, rfl, rfl⟩)
  · exact h.2 tGen rfl rfl rfl rfl

/-- Every operation the generate branch issues uses namespace `c`. -/
theorem genTrace_ns (c nm : String) (s : Store) :
    ∀ op ∈ genTrace c nm s, op.nspaceOf = c := by
  intro op hop
  unfold genTrace at hop
  cases h1 : storeFetch s (caKeyOf c) with
  | some d1 =>
    cases h2 : storeFetch (storeAfterCA c s) (nodeKeyOf c nm) with
    | some d2 =>
      rw [h1, h2] at hop
      simp at hop
      rcases hop with rfl | rfl <;> rfl
    | none =>
      rw [h1, h2] at hop
      simp at hop
      rcases hop with rfl | rfl | rfl <;> rfl
  | none =>
    cases h2 : storeFetch (storeAfterCA c s) (nodeKeyOf c nm) with
    | some d2 =>
      rw [h1, h2] at hop
      simp at hop
      rcases hop with rfl | rfl | rfl <;> rfl
    | none =>
      rw [h1, h2] at hop
      simp at hop
      rcases hop with rfl | rfl | rfl | rfl <;> rfl

/-- Every store operation an interface call adds to the trace uses the
cluster name as its namespace. -/
theorem HandleInterface_trace_ns (inst : OpenSearchCluster) (nm : String)
    (cfg : Option TlsInterfaceConfig) (st : PassState) (dn : List String) :
    ∀ op ∈ (TlsReconciler.HandleInterface inst nm cfg st dn).1.trace,
      op ∈ st.trace ∨ op.nspaceOf = inst.spec.general.clusterName := by
  cases cfg with
  | none => exact fun op hop => Or.inl hop
  | some cf =>
    by_cases hg : cf.generate
    · rw [HandleInterface_gen inst nm cf st dn hg]
      intro op hop
      rcases List.mem_append.mp hop with h | h
      · exact Or.inl h
      · exact Or.inr (genTrace_ns _ _ _ op h)
    · have hg' : cf.generate = false := by simpa using hg
      cases hca : cf.caSecret with
      | none =>
        rw [HandleInterface_ext_missing inst nm cf st dn hg' (Or.inl hca)]
        exact fun op hop => Or.inl hop
      | some caS =>
        cases hcert : cf.certSecret with
        | none =>
          rw [HandleInterface_ext_missing inst nm cf st dn hg' (Or.inr (Or.inl hcert))]
          exact fun op hop => Or.inl hop
        | some certS =>
          cases hkey : cf.keySecret with
          | none =>
            rw [HandleInterface_ext_missing inst nm cf st dn hg' (Or.inr (Or.inr hkey))]
            exact fun op hop => Or.inl hop
          | some keyS =>
            rw [HandleInterface_ext inst nm cf st dn hg' hca hcert hkey]
            exact fun op hop => Or.inl hop

/-- C10: Every secret fetch and create issued by the TLS reconciler uses the
cluster name (`Spec.General.ClusterName`) as the store namespace argument, and
the cluster resource's own Kubernetes namespace is never consulted: the whole
pass result is invariant under changing it. -/
theorem store_ops_namespace (inst : OpenSearchCluster) (st0 : PassState) :
    (∀ op ∈ (TlsReconciler.Reconcile inst st0).1.trace,
      op ∈ st0.trace ∨ op.nspaceOf = inst.spec.general.clusterName) ∧
    (∀ ns2, TlsReconciler.Reconcile { inst with metaNamespace := ns2 } st0 =
      TlsReconciler.Reconcile inst st0) := by
  constructor
  · cases hsec : inst.spec.security with
    | none =>
      rw [Reconcile_no_security inst st0 hsec]
      exact fun op hop => Or.inl hop
    | some sec =>
      cases htls : sec.tls with
      | none =>
        rw [Reconcile_no_tls inst st0 sec hsec htls]
        exact fun op hop => Or.inl hop
      | some tlsConfig =>
        rcases hT : TlsReconciler.HandleInterface inst "transport"
            tlsConfig.transport st0 tlsConfig.nodesDn with ⟨stT, dnT, eT⟩
        have hTns := HandleInterface_trace_ns inst "transport" tlsConfig.transport
          st0 tlsConfig.nodesDn
        rw [hT] at hTns
        cases eT with
        | some e =>
          rw [Reconcile_transport_err inst st0 sec tlsConfig stT dnT e hsec htls hT]
          exact hTns
        | none =>
          rcases hH : TlsReconciler.HandleInterface inst "http" tlsConfig.http
              stT dnT with ⟨stH, dnH, eH⟩
          have hHns := HandleInterface_trace_ns inst "http" tlsConfig.http stT dnT
          rw [hH] at hHns
          have hcomp : ∀ op ∈ stH.trace,
              op ∈ st0.trace ∨ op.nspaceOf = inst.spec.general.clusterName := by
            intro op hop
            rcases hHns op hop with h | h
            · exact hTns op h
            · exact Or.inr h
          cases eH with
          | some e =>
            rw [Reconcile_http_err inst st0 sec tlsConfig stT stH dnT dnH e
              hsec htls hT hH]
            exact hcomp
          | none =>
            rw [Reconcile_tls_eq inst st0 sec tlsConfig stT stH dnT dnH
              hsec htls hT hH]
            intro op hop
            rw [tailStep_trace] at hop
            exact hcomp op hop
  · intro ns2
    rfl

/-- Witness for C10: a concrete fetch issued by the demo pass carries the
cluster name as namespace, and changing the resource namespace changes
nothing. -/
theorem store_ops_namespace_witness :
    (StoreOp.fetchOp "demo-ca" "demo").nspaceOf = "demo" ∧
    TlsReconciler.Reconcile { demoInst with metaNamespace := "second" }
        initialState = TlsReconciler.Reconcile demoInst initialState := by
  have h := store_ops_namespace demoInst initialState
  constructor
  · have hm : StoreOp.fetchOp "demo-ca" "demo" ∈
        (TlsReconciler.Reconcile demoInst initialState).1.trace := by decide
    rcases h.1 _ hm with hin | hns
    · simp [initialState] at hin
    · exact hns
  · exact h.2 "second"

end OpenSearchOperator
